import Mathlib

/-!
Verification of the retrieval-answer-formatting and document-to-index
contracts of the pdf-qa repository (two variants: `gemini-pdf-qa-bot` and
`pdf-qa-bot`).  The Python source is shallowly embedded: pure methods become
Lean functions, raised exceptions become `Except.error` carrying the
exception message, and the filesystem effects of `create_vectorstore`
become an explicit event trace.
-/

namespace PdfQA

/-- A retrieved document/passage: `page_content` plus the two metadata keys
the code reads.  `source = none` models a metadata dict without a
`'source'` key (the code then substitutes `'Unknown'`); `page = none`
models a missing (or non-integer) `'page'` value, which is exactly the
`isinstance(page, int)` distinction made by `_format_sources`. -/
structure Doc where
  page_content : String
  source : Option String
  page : Option Int
deriving DecidableEq, Repr

/-- `doc.metadata.get('source', 'Unknown')`. -/
def sourceOf (d : Doc) : String := d.source.getD "Unknown"

/-- `os.path.basename` on the char list: the suffix after the last `/`. -/
def basenameAux : List Char → List Char → List Char
  | [], acc => acc.reverse
  | c :: cs, acc => if c = '/' then basenameAux cs [] else basenameAux cs (c :: acc)

/-- `os.path.basename(source)` (POSIX semantics: text after the final slash). -/
def basename (s : String) : String := String.mk (basenameAux s.data [])

/-- The dedup key `f"{source}_{page}"` / `f"{source}_N/A"` built by
`_format_sources`. -/
def pageKey (d : Doc) : String :=
  match d.page with
  | some p => sourceOf d ++ "_" ++ toString p
  | none => sourceOf d ++ "_N/A"

/-- The page label: `f"Page {page + 1}"` for an integer page, else `"Page N/A"`. -/
def pageLabel (d : Doc) : String :=
  match d.page with
  | some p => "Page " ++ toString (p + 1)
  | none => "Page N/A"

/-- `doc.page_content[:150].replace('\n', ' ')`: first 150 characters, each
newline replaced by a space. -/
def snippet (content : String) : String :=
  String.mk ((content.data.take 150).map (fun c => if c = '\n' then ' ' else c))

/-- One rendered citation line:
`f"\n- **{page_label}** ({os.path.basename(source)}): _{snippet}..._"`. -/
def formatEntry (d : Doc) : String :=
  "\n- **" ++ pageLabel d ++ "** (" ++ basename (sourceOf d) ++ "): _" ++
    snippet d.page_content ++ "..._"

/-- The loop of `_format_sources`: walk the retrieved docs in rank order,
keeping each doc whose `pageKey` has not been seen, threading the
`seen_pages` set (as a list). -/
def surviving : List Doc → List String → List Doc
  | [], _ => []
  | d :: ds, seen =>
      if pageKey d ∈ seen then surviving ds seen
      else d :: surviving ds (pageKey d :: seen)

/-- The docs that contribute an entry to the citation block. -/
def survivingDocs (docs : List Doc) : List Doc := surviving docs []

/-- `QAEngine._format_sources`: empty input gives `""`; otherwise the header
followed by one entry per first-seen `(source, page)` key. -/
def format_sources (docs : List Doc) : String :=
  if docs = [] then ""
  else "\n\n📎 **Sources:**\n" ++ String.join ((surviving docs []).map formatEntry)

end PdfQA

namespace PdfQA

/-- A Python value returned by calling the LLM object directly: either a
plain string or a mapping with string keys and string values (the shapes
`_llm_predict` branches on via `isinstance(response, dict)`). -/
inductive PyVal where
  | str (s : String)
  | dict (entries : List (String × String))
deriving DecidableEq, Repr

/-- Modelled Python builtin: `repr` of a string in the common case — single
quotes around the text, escaping backslashes, single quotes and newlines. -/
def pyReprStr (s : String) : String :=
  "'" ++ String.join (s.data.map (fun c =>
    if c = '\\' then "\\\\"
    else if c = '\'' then "\\'"
    else if c = '\n' then "\\n"
    else String.mk [c])) ++ "'"

/-- One `key: value` piece of Python's `str()` rendering of a dict. -/
def pyDictItem (kv : String × String) : String :=
  pyReprStr kv.fst ++ ": " ++ pyReprStr kv.snd

/-- Modelled Python builtin: `str(response)` for a dict of strings, e.g.
`{'output': 'X'}` — the last-resort branch of `_llm_predict`. -/
def pyStrOfDict (es : List (String × String)) : String :=
  "\x7b" ++ String.intercalate ", " (es.map pyDictItem) ++ "\x7d"

/-- The LLM object held in `self.llm`.  `predict = none` models an object
with no `predict` attribute (the `AttributeError` is caught and triggers
the fallback); `predict = some f` with `f p = .error e` models a `predict`
call that raises.  `call` is the `self.llm(prompt)` fallback, which may
itself raise. -/
structure LLM where
  predict : Option (String → Except String String)
  call : String → Except String PyVal

/-- The key-extraction loop of `_llm_predict`:
`for key in ("content", "text", "output", "result"): if key in response: return response[key]`,
else `str(response)`. -/
def extractFromDict (es : List (String × String)) : String :=
  match es.lookup "content" with
  | some v => v
  | none =>
    match es.lookup "text" with
    | some v => v
    | none =>
      match es.lookup "output" with
      | some v => v
      | none =>
        match es.lookup "result" with
        | some v => v
        | none => pyStrOfDict es

/-- The fallback branch of `_llm_predict`: call the LLM directly; a dict
result goes through key extraction, a string result is returned as is
(`str` of a string is itself); an exception from the call propagates. -/
def llmCallFallback (l : LLM) (prompt : String) : Except String String :=
  match l.call prompt with
  | .error e => .error e
  | .ok (.str s) => .ok s
  | .ok (.dict es) => .ok (extractFromDict es)

/-- `QAEngine._llm_predict`: raises if no LLM is configured; otherwise tries
`predict` and returns its result directly, falling back to calling the LLM
when `predict` is absent or raises. -/
def llm_predict (llm : Option LLM) (prompt : String) : Except String String :=
  match llm with
  | none => .error "LLM not configured: set `engine.llm` to a valid LLM instance"
  | some l =>
    match l.predict with
    | some f =>
      match f prompt with
      | .ok s => .ok s
      | .error _ => llmCallFallback l prompt
    | none => llmCallFallback l prompt

/-- The dict returned by calling the QA chain: the `'result'` and
`'source_documents'` keys read by `ask` (`none` / `[]` model absence, which
`response.get` defaults). -/
structure ChainResponse where
  result : Option String
  source_documents : List Doc

/-- The QA chain `self.qa_chain({"query": query})`: a function of the query
that either returns a response dict or raises. -/
def Chain := String → Except String ChainResponse

/-- The mutable state of a `QAEngine`: the bound chain (set by
`setup_chain`, `none` before) and the chat history.  `llm` is the LLM used
by `_llm_predict`/`summarize_document`. -/
structure EngineState where
  qa_chain : Option Chain
  chat_history : List (String × String)
  llm : Option LLM

/-- The `"sources"` value of the dict `ask` returns: the Python code puts
the empty list `[]` there on both error paths and a formatted string on
success. -/
inductive SourcesVal where
  | emptyList
  | text (s : String)
deriving DecidableEq, Repr

/-- The dict `{"answer": ..., "sources": ..., "error": ...}` returned by
`ask`. -/
structure AskResult where
  answer : String
  sources : SourcesVal
  error : Bool
deriving DecidableEq, Repr

/-- Outcome of an `ask` call: a raised exception (with its message) or a
returned result dict. -/
inductive AskOutcome where
  | raised (msg : String)
  | returned (r : AskResult)
deriving DecidableEq, Repr

/-- Python `str.strip` yields the empty string iff every character is
whitespace; the whitespace characters of the ASCII range. -/
def isPySpace (c : Char) : Bool :=
  c = ' ' ∨ c = '\t' ∨ c = '\n' ∨ c = '\x0d' ∨ c = '\x0b' ∨ c = '\x0c'

/-- `not query.strip()`: the query is empty or whitespace-only. -/
def isBlank (q : String) : Bool := q.data.all isPySpace

/-- `QAEngine.ask`, as a function of the engine state returning the outcome
and the successor state.  Unbound → raise `ValueError`; blank query →
fixed guidance dict with `error=True`; otherwise call the chain, catching
any exception into an error dict, and on success append `(query, answer)`
to the history. -/
def ask (st : EngineState) (query : String) : AskOutcome × EngineState :=
  match st.qa_chain with
  | none => (.raised "QA chain not initialized. Call setup_chain() first.", st)
  | some chain =>
    if isBlank query then
      (.returned ⟨"Please enter a valid question.", .emptyList, true⟩, st)
    else
      match chain query with
      | .ok resp =>
        let answer := resp.result.getD "No answer generated"
        (.returned ⟨answer, .text (format_sources resp.source_documents), false⟩,
          { st with chat_history := st.chat_history ++ [(query, answer)] })
      | .error e =>
        (.returned ⟨"Error processing question: " ++ e, .emptyList, true⟩, st)

/-- The vector store handed to `summarize_document`: `as_retriever(k)` +
`get_relevant_documents(query)` collapse to one retrieval function that may
raise. -/
structure VectorStore where
  retrieve : String → Nat → Except String (List Doc)

/-- `"\n\n".join(...)`. -/
def joinSep (sep : String) : List String → String
  | [] => ""
  | [s] => s
  | s :: rest => s ++ sep ++ joinSep sep rest

/-- The f-string summary prompt of `summarize_document`, with its literal
indentation. -/
def summaryPrompt (combined : String) : String :=
  "Provide a concise summary of the following document excerpts. \n            Focus on the main topics, key points, and overall theme:\n\n            " ++
    combined ++ "\n\n            Summary:"

/-- `QAEngine.summarize_document`: retrieve top-5 for the fixed query, join
the text of the first 3 docs, build the prompt, invoke `_llm_predict`; any
exception anywhere in the `try` block becomes the returned string
`"Error generating summary: <reason>"`. -/
def summarize_document (st : EngineState) (vs : VectorStore) : String :=
  match vs.retrieve "summary overview main points" 5 with
  | .error e => "Error generating summary: " ++ e
  | .ok docs =>
    let combined := joinSep "\n\n" ((docs.take 3).map Doc.page_content)
    match llm_predict st.llm (summaryPrompt combined) with
    | .ok s => s
    | .error e => "Error generating summary: " ++ e

end PdfQA

namespace PdfQA

/-- `DocumentProcessor.load_pdfs` (both variants): per-file extraction
modelled by `extract`; a failing file is caught, logged and skipped, a
succeeding file appends its pages. -/
def load_pdfs (extract : String → Except String (List Doc)) :
    List String → List Doc
  | [] => []
  | p :: ps =>
    (match extract p with
     | .ok docs => docs
     | .error _ => []) ++ load_pdfs extract ps

/-- `DocumentProcessor.process_files` (gemini variant), parameterized over
the external extractor, splitter and vector-store construction.  Empty
input and empty extraction both raise `ValueError` (modelled as
`Except.error` of the message). -/
def process_files {V : Type} (extract : String → Except String (List Doc))
    (split : List Doc → List Doc) (vectorize : List Doc → V)
    (file_paths : List String) : Except String V :=
  if file_paths = [] then .error "No files provided"
  else
    let documents := load_pdfs extract file_paths
    if documents = [] then .error "No documents were successfully loaded"
    else .ok (vectorize (split documents))

/-- Filesystem-visible events of a `create_vectorstore` run:
`removedDir` is `shutil.rmtree(persist_directory)`, `loadedExistingStore`
is `Chroma(persist_directory=..., embedding=...)` succeeding (no
re-embedding), `builtFromDocuments` is `Chroma.from_documents(...)` — the
embedding/index-construction step over the chunk batch. -/
inductive CVEvent where
  | removedDir
  | loadedExistingStore
  | builtFromDocuments
deriving DecidableEq, Repr

/-- `DocumentProcessor.create_vectorstore` of the second (`pdf-qa-bot`)
variant, as an event trace.  `hasEmbeddings` is whether `self.embeddings`
was configured (else `RuntimeError`); `dirExists` is
`os.path.exists(persist_directory)`; `loadSucceeds` is whether opening the
persisted store raises. -/
def create_vectorstore (hasEmbeddings dirExists loadSucceeds force_recreate : Bool) :
    Except String (List CVEvent) :=
  if !hasEmbeddings then
    .error "Embeddings provider not configured — install dependencies or set `DocumentProcessor.embeddings`."
  else if dirExists then
    if force_recreate then .ok [.removedDir, .builtFromDocuments]
    else if loadSucceeds then .ok [.loadedExistingStore]
    else .ok [.removedDir, .builtFromDocuments]
  else .ok [.builtFromDocuments]

/-- `DocumentProcessor.create_vectorstore` of the first (`gemini`) variant,
as an event trace: an existing persist directory is removed
unconditionally, then the store is always rebuilt from the chunks. -/
def create_vectorstore_gemini (dirExists : Bool) : List CVEvent :=
  if dirExists then [.removedDir, .builtFromDocuments]
  else [.builtFromDocuments]

end PdfQA

namespace PdfQA

/-- A stub chain returning a fixed answer and no sources, used to put an
engine into the bound state on concrete inputs. -/
def stubChain : Chain := fun _ => .ok ⟨some "ans", []⟩

/-- A stub chain mirroring the repository unit test: fixed answer plus one
source document from page 1 of `x.pdf`. -/
def okChain : Chain :=
  fun _ => .ok ⟨some "This is the answer", [⟨"text snippet", some "x.pdf", some 1⟩]⟩

/-- A stub chain whose call raises with message `boom`. -/
def errChain : Chain := fun _ => .error "boom"

/-- A stub vector store returning one passage for every query. -/
def stubVS : VectorStore := ⟨fun _ _ => .ok [⟨"doc text", some "x.pdf", some 0⟩]⟩

/-- A stub vector store returning five passages in rank order. -/
def fiveDocVS : VectorStore :=
  ⟨fun _ _ => .ok [⟨"d1", some "x.pdf", some 0⟩, ⟨"d2", some "x.pdf", some 1⟩,
    ⟨"d3", some "x.pdf", some 2⟩, ⟨"d4", some "x.pdf", some 3⟩,
    ⟨"d5", some "x.pdf", some 4⟩]⟩

/-- An LLM whose `predict` returns the fixed string `SUMMARY`. -/
def fixedLLM : LLM := ⟨some (fun _ => .ok "SUMMARY"), fun _ => .error "not callable"⟩

/-- An LLM whose `predict` echoes its prompt, exposing the exact prompt
`summarize_document` builds. -/
def echoLLM : LLM := ⟨some (fun p => .ok p), fun _ => .error "not callable"⟩

/-- A stub vector store whose retrieval raises. -/
def failVS : VectorStore := ⟨fun _ _ => .error "retriever down"⟩

/-- A per-file extractor on which `a.pdf` fails and every other path yields
one page document. -/
def exC8 : String → Except String (List Doc) :=
  fun p => if p = "a.pdf" then .error "bad pdf" else .ok [⟨"pg", some p, some 0⟩]

end PdfQA

namespace PdfQA

theorem surviving_sublist (docs : List Doc) (seen : List String) :
    (surviving docs seen).Sublist docs := by
  induction docs generalizing seen with
  | nil => simp [surviving]
  | cons d ds ih =>
      by_cases h : pageKey d ∈ seen
      · simp only [surviving, if_pos h]
        exact (ih seen).cons d
      · simp only [surviving, if_neg h]
        exact (ih (pageKey d :: seen)).cons₂ d

theorem surviving_key_not_seen (docs : List Doc) (seen : List String) :
    ∀ d ∈ surviving docs seen, pageKey d ∉ seen := by
  induction docs generalizing seen with
  | nil => simp [surviving]
  | cons d ds ih =>
      by_cases h : pageKey d ∈ seen
      · simpa [surviving, if_pos h] using ih seen
      · intro e he
        simp only [surviving, if_neg h, List.mem_cons] at he
        rcases he with rfl | he
        · exact h
        · have := ih (pageKey d :: seen) e he
          intro hmem
          exact this (List.mem_cons_of_mem _ hmem)

theorem surviving_pairwise_key (docs : List Doc) (seen : List String) :
    (surviving docs seen).Pairwise (fun a b => pageKey a ≠ pageKey b) := by
  induction docs generalizing seen with
  | nil => simp [surviving]
  | cons d ds ih =>
      by_cases h : pageKey d ∈ seen
      · simpa [surviving, if_pos h] using ih seen
      · simp only [surviving, if_neg h]
        refine List.Pairwise.cons ?_ (ih (pageKey d :: seen))
        intro e he
        have := surviving_key_not_seen ds (pageKey d :: seen) e he
        intro hEq
        exact this (hEq ▸ List.mem_cons_self _ _)

theorem surviving_first_wins (docs : List Doc) (seen : List String) :
    ∀ e ∈ surviving docs seen,
      docs.find? (fun d => pageKey d == pageKey e) = some e := by
  induction docs generalizing seen with
  | nil => simp [surviving]
  | cons d ds ih =>
      intro e he
      by_cases h : pageKey d ∈ seen
      · simp only [surviving, if_pos h] at he
        have hne : pageKey d ≠ pageKey e := by
          intro hEq
          exact surviving_key_not_seen ds seen e he (hEq ▸ h)
        rw [List.find?_cons_of_neg _ (by simpa using hne)]
        exact ih seen e he
      · simp only [surviving, if_neg h, List.mem_cons] at he
        rcases he with rfl | he
        · rw [List.find?_cons_of_pos _ (by simp)]
        · have hne : pageKey d ≠ pageKey e := by
            intro hEq
            exact surviving_key_not_seen ds (pageKey d :: seen) e he
              (hEq ▸ List.mem_cons_self _ _)
          rw [List.find?_cons_of_neg _ (by simpa using hne)]
          exact ih (pageKey d :: seen) e he

theorem surviving_all_seen (docs : List Doc) (seen : List String)
    (h : ∀ d ∈ docs, pageKey d ∈ seen) : surviving docs seen = [] := by
  induction docs with
  | nil => rfl
  | cons d ds ih =>
      have hd := h d (List.mem_cons_self d ds)
      simp [surviving, hd, ih (fun e he => h e (List.mem_cons_of_mem d he))]

theorem load_pdfs_nil_of_all_fail (extract : String → Except String (List Doc))
    (paths : List String) (h : ∀ p ∈ paths, ∃ e, extract p = .error e) :
    load_pdfs extract paths = [] := by
  induction paths with
  | nil => rfl
  | cons p ps ih =>
      obtain ⟨e, he⟩ := h p (List.mem_cons_self p ps)
      simp [load_pdfs, he, ih (fun q hq => h q (List.mem_cons_of_mem p hq))]

/-- C1 (amended): deduplication of the citation block keys on the full
`source` path together with the page, not on the basename: the surviving
entries are a sublist of the retrieved docs (so they appear in first-seen
retrieval-rank order), no two of them share the same (source, page) pair,
and each surviving entry is the first retrieved doc bearing its dedup key
(first occurrence wins). -/
theorem format_sources_dedup (docs : List Doc) :
    (survivingDocs docs).Sublist docs ∧
    (survivingDocs docs).Pairwise
      (fun a b => ¬ (sourceOf a = sourceOf b ∧ a.page = b.page)) ∧
    ∀ e ∈ survivingDocs docs,
      docs.find? (fun d => pageKey d == pageKey e) = some e := by
  refine ⟨surviving_sublist docs [], ?_, surviving_first_wins docs []⟩
  have h := surviving_pairwise_key docs []
  exact h.imp (fun hk hsp => hk (by unfold pageKey; rw [hsp.1, hsp.2]))

/-- C1 witness: the dedup theorem applied to a concrete two-doc list whose
entries share one key. -/
theorem format_sources_dedup_witness :
    ([⟨"t1", some "a/x.pdf", some 0⟩, ⟨"t2", some "a/x.pdf", some 0⟩] : List Doc).find?
        (fun d => pageKey d == pageKey ⟨"t1", some "a/x.pdf", some 0⟩) =
      some ⟨"t1", some "a/x.pdf", some 0⟩ :=
  (format_sources_dedup [⟨"t1", some "a/x.pdf", some 0⟩,
    ⟨"t2", some "a/x.pdf", some 0⟩]).2.2 ⟨"t1", some "a/x.pdf", some 0⟩ (by decide)

/-- C1 counterexample: passages from page 0 of `a/x.pdf` and of `b/x.pdf`
have the same basename `x.pdf` and the same page, yet both survive
deduplication — the block does not contain at most one entry per
(source-basename, page) pair. -/
theorem format_sources_basename_ce :
    survivingDocs [⟨"t1", some "a/x.pdf", some 0⟩, ⟨"t2", some "b/x.pdf", some 0⟩] =
      [⟨"t1", some "a/x.pdf", some 0⟩, ⟨"t2", some "b/x.pdf", some 0⟩] ∧
    basename (sourceOf ⟨"t1", some "a/x.pdf", some 0⟩) = "x.pdf" ∧
    basename (sourceOf ⟨"t2", some "b/x.pdf", some 0⟩) = "x.pdf" ∧
    ¬ (survivingDocs [⟨"t1", some "a/x.pdf", some 0⟩,
          ⟨"t2", some "b/x.pdf", some 0⟩]).Pairwise
        (fun a b => ¬ (basename (sourceOf a) = basename (sourceOf b) ∧
          a.page = b.page)) := by
  refine ⟨by decide, by decide, by decide, ?_⟩
  decide

/-- C2 counterexample: on a bound engine, an empty and a whitespace-only
question both return the guidance dict with `error = true`, not
`isError = false` as claimed. -/
theorem ask_blank_error_flag_ce :
    (ask ⟨some stubChain, [], none⟩ "").1 =
      .returned ⟨"Please enter a valid question.", .emptyList, true⟩ ∧
    (ask ⟨some stubChain, [], none⟩ "   ").1 =
      .returned ⟨"Please enter a valid question.", .emptyList, true⟩ :=
  ⟨rfl, rfl⟩

/-- C2 (amended): on a bound engine, an empty or whitespace-only question
returns the fixed guidance message "Please enter a valid question." with
`error = true` (the code flags the usage hint as an error), and the engine
state — in particular the history — is unchanged. -/
theorem ask_blank_guidance (st : EngineState) (c : Chain) (q : String)
    (hb : st.qa_chain = some c) (hq : isBlank q = true) :
    ask st q =
      (.returned ⟨"Please enter a valid question.", .emptyList, true⟩, st) := by
  unfold ask
  rw [hb]
  simp [hq]

/-- C2 witness: the guidance behavior at a concrete bound engine and the
whitespace-only question of the spec example. -/
theorem ask_blank_guidance_witness :
    ask ⟨some stubChain, [], none⟩ "   " =
      (.returned ⟨"Please enter a valid question.", .emptyList, true⟩,
        ⟨some stubChain, [], none⟩) :=
  ask_blank_guidance ⟨some stubChain, [], none⟩ stubChain "   " rfl (by decide)

/-- C3 counterexample: with no chain bound (`qa_chain = none`),
`summarize_document` does not fail with an unbound-index error — it runs
the retrieval/LLM pipeline and returns the generated summary. -/
theorem summarize_unbound_ce :
    (⟨none, [], some fixedLLM⟩ : EngineState).qa_chain = none ∧
    summarize_document ⟨none, [], some fixedLLM⟩ stubVS = "SUMMARY" :=
  ⟨rfl, rfl⟩

/-- C3 (amended): `ask` called before `bind` raises the unbound error
("QA chain not initialized. Call setup_chain() first.") and leaves the
state unchanged; `summarize_document`, by contrast, performs no
bound-state check: it takes the vector store as an explicit argument and
its result does not depend on `qa_chain` at all. -/
theorem ask_unbound_raises (st : EngineState) (h : st.qa_chain = none) :
    (∀ q, ask st q =
      (.raised "QA chain not initialized. Call setup_chain() first.", st)) ∧
    (∀ (c : Option Chain) (vs : VectorStore),
      summarize_document st vs =
        summarize_document ⟨c, st.chat_history, st.llm⟩ vs) := by
  constructor
  · intro q
    unfold ask
    rw [h]
  · intro c vs
    rfl

/-- C3 witness: the unbound behavior at a concrete unbound engine. -/
theorem ask_unbound_raises_witness :
    ask ⟨none, [], some fixedLLM⟩ "hi" =
      (.raised "QA chain not initialized. Call setup_chain() first.",
        ⟨none, [], some fixedLLM⟩) ∧
    summarize_document ⟨none, [], some fixedLLM⟩ stubVS =
      summarize_document ⟨some stubChain, [], some fixedLLM⟩ stubVS := by
  have h := ask_unbound_raises ⟨none, [], some fixedLLM⟩ rfl
  exact ⟨h.1 "hi", h.2 (some stubChain) stubVS⟩

/-- C4: on a bound engine and a non-blank question, `ask` never raises: a
chain failure with reason `e` returns the dict whose answer is
"Error processing question: " ++ e (the answer text contains the reason)
with `error = true` and the state unchanged (nothing appended to history);
a chain success returns the generated answer with `error = false`, the
formatted sources, and appends (question, answer) to the history. -/
theorem ask_catches_failures (st : EngineState) (c : Chain) (q : String)
    (hb : st.qa_chain = some c) (hq : isBlank q = false) :
    (∀ e, c q = .error e →
      ask st q =
        (.returned ⟨"Error processing question: " ++ e, .emptyList, true⟩, st)) ∧
    (∀ resp, c q = .ok resp →
      ask st q = (.returned
          ⟨resp.result.getD "No answer generated",
            .text (format_sources resp.source_documents), false⟩,
        { st with chat_history :=
            st.chat_history ++ [(q, resp.result.getD "No answer generated")] })) := by
  constructor
  · intro e he
    unfold ask
    rw [hb]
    simp [hq, he]
  · intro resp hr
    unfold ask
    rw [hb]
    simp [hq, hr]

/-- C4 witness: the mirror of the repository unit test — a stub chain
returning "This is the answer" and one page-1 passage of `x.pdf` gives a
non-error result citing Page 2 and appends to history; a raising stub
chain gives the error dict and appends nothing. -/
theorem ask_catches_failures_witness :
    ask ⟨some okChain, [], none⟩ "What is this?" =
      (.returned ⟨"This is the answer",
          .text "\n\n📎 **Sources:**\n\n- **Page 2** (x.pdf): _text snippet..._",
          false⟩,
        ⟨some okChain, [("What is this?", "This is the answer")], none⟩) ∧
    ask ⟨some errChain, [], none⟩ "q" =
      (.returned ⟨"Error processing question: boom", .emptyList, true⟩,
        ⟨some errChain, [], none⟩) := by
  constructor
  · have h := (ask_catches_failures ⟨some okChain, [], none⟩ okChain "What is this?"
      rfl (by decide)).2
      ⟨some "This is the answer", [⟨"text snippet", some "x.pdf", some 1⟩]⟩ rfl
    rw [h]
    rfl
  · exact (ask_catches_failures ⟨some errChain, [], none⟩ errChain "q"
      rfl (by decide)).1 "boom" rfl

/-- C5: for a non-empty retrieval set the citation block is the header
followed by, for each surviving passage, the entry
"\n- **" ++ page label ++ "** (" ++ basename ++ "): _" ++ first 150 chars
with newlines replaced by spaces ++ "..._"; a page-0 passage is labelled
"Page 1", a pageless passage "Page N/A", and any number of pageless
passages from the same source collapse to the first one. -/
theorem format_sources_rendering (docs : List Doc) (hne : docs ≠ []) :
    format_sources docs =
      "\n\n📎 **Sources:**\n" ++
        String.join ((survivingDocs docs).map (fun d =>
          "\n- **" ++ pageLabel d ++ "** (" ++ basename (sourceOf d) ++ "): _" ++
            String.mk ((d.page_content.data.take 150).map
              (fun ch => if ch = '\n' then ' ' else ch)) ++ "..._")) ∧
    (∀ d : Doc, d.page = some 0 → pageLabel d = "Page 1") ∧
    (∀ d : Doc, d.page = none → pageLabel d = "Page N/A") ∧
    (∀ (s : Option String) (t : String) (ts : List String),
      survivingDocs (⟨t, s, none⟩ :: ts.map (fun u => ⟨u, s, none⟩)) =
        [⟨t, s, none⟩]) := by
  refine ⟨?_, ?_, ?_, ?_⟩
  · simp only [format_sources, if_neg hne]
    rfl
  · intro d hd
    unfold pageLabel
    rw [hd]
    decide
  · intro d hd
    simp [pageLabel, hd]
  · intro s t ts
    unfold survivingDocs
    rw [surviving, if_neg (by simp)]
    rw [surviving_all_seen]
    intro d hd
    obtain ⟨u, hu, rfl⟩ := List.mem_map.mp hd
    simp [pageKey, sourceOf]

/-- C5 witness: the rendering theorem applied to concrete passages — a
newline-bearing page-0 passage of `dir/a.pdf` renders as Page 1 with
basename `a.pdf` and the newline turned into a space, and two pageless
passages of one source collapse. -/
theorem format_sources_rendering_witness :
    format_sources [⟨"Hi\nthere", some "dir/a.pdf", some 0⟩] =
      "\n\n📎 **Sources:**\n\n- **Page 1** (a.pdf): _Hi there..._" ∧
    pageLabel ⟨"Hello from page 0", some "b.pdf", some 0⟩ = "Page 1" ∧
    pageLabel ⟨"Hello from pageless doc", some "a.pdf", none⟩ = "Page N/A" ∧
    survivingDocs [⟨"t1", some "a.pdf", none⟩, ⟨"t2", some "a.pdf", none⟩] =
      [⟨"t1", some "a.pdf", none⟩] := by
  have h := format_sources_rendering [⟨"Hi\nthere", some "dir/a.pdf", some 0⟩]
    (by decide)
  refine ⟨h.1.trans (by decide), h.2.1 _ rfl, h.2.2.1 _ rfl, ?_⟩
  have hc := h.2.2.2 (some "a.pdf") "t1" ["t2"]
  simpa using hc

/-- C6: `summarize_document` retrieves the top 5 passages for the fixed
query "summary overview main points"; on retrieval failure with reason `e`
it returns "Error generating summary: " ++ e; on success it makes exactly
one LLM invocation, on the fixed template applied to the "\n\n"-joined
text of the first 3 passages in retrieval rank, returning the completion
directly on success and "Error generating summary: " ++ e when that
invocation raises with reason `e`. -/
theorem summarize_pipeline (st : EngineState) (vs : VectorStore) :
    (∀ e, vs.retrieve "summary overview main points" 5 = .error e →
      summarize_document st vs = "Error generating summary: " ++ e) ∧
    (∀ docs e, vs.retrieve "summary overview main points" 5 = .ok docs →
      llm_predict st.llm
          (summaryPrompt (joinSep "\n\n" ((docs.take 3).map Doc.page_content))) =
        .error e →
      summarize_document st vs = "Error generating summary: " ++ e) ∧
    (∀ docs s, vs.retrieve "summary overview main points" 5 = .ok docs →
      llm_predict st.llm
          (summaryPrompt (joinSep "\n\n" ((docs.take 3).map Doc.page_content))) =
        .ok s →
      summarize_document st vs = s) := by
  refine ⟨?_, ?_, ?_⟩
  · intro e he
    unfold summarize_document
    rw [he]
  · intro docs e hr hp
    unfold summarize_document
    rw [hr]
    simp only []
    rw [hp]
  · intro docs s hr hp
    unfold summarize_document
    rw [hr]
    simp only []
    rw [hp]

/-- C6 witness: with an echoing LLM the returned summary is exactly the
template filled with the first three of the five retrieved passages, and a
raising retriever yields the error string. -/
theorem summarize_pipeline_witness :
    summarize_document ⟨none, [], some echoLLM⟩ fiveDocVS =
      "Provide a concise summary of the following document excerpts. \n            Focus on the main topics, key points, and overall theme:\n\n            d1\n\nd2\n\nd3\n\n            Summary:" ∧
    summarize_document ⟨none, [], some echoLLM⟩ failVS =
      "Error generating summary: retriever down" := by
  constructor
  · exact ((summarize_pipeline ⟨none, [], some echoLLM⟩ fiveDocVS).2.2
      [⟨"d1", some "x.pdf", some 0⟩, ⟨"d2", some "x.pdf", some 1⟩,
        ⟨"d3", some "x.pdf", some 2⟩, ⟨"d4", some "x.pdf", some 3⟩,
        ⟨"d5", some "x.pdf", some 4⟩]
      (summaryPrompt (joinSep "\n\n" ["d1", "d2", "d3"])) rfl rfl).trans rfl
  · exact (summarize_pipeline ⟨none, [], some echoLLM⟩ failVS).1
      "retriever down" rfl

/-- C7: the LLM invocation helper normalizes both call conventions — a
succeeding `predict` is returned directly; without `predict` the callable
form is used, a string result is returned as is and a mapping result
yields the first present of the keys content, text, output, result (else
the stringified mapping); consequently `summarize_document` returns the
same `X` whether `predict` returns `X` or the callable form returns a
mapping carrying `X` under the `output` key. -/
theorem llm_predict_conventions :
    (∀ (f : String → Except String String) (g : String → Except String PyVal)
        (p s : String), f p = .ok s → llm_predict (some ⟨some f, g⟩) p = .ok s) ∧
    (∀ (g : String → Except String PyVal) (p s : String),
      g p = .ok (.str s) → llm_predict (some ⟨none, g⟩) p = .ok s) ∧
    (∀ (g : String → Except String PyVal) (p : String)
        (es : List (String × String)),
      g p = .ok (.dict es) →
        llm_predict (some ⟨none, g⟩) p = .ok (extractFromDict es)) ∧
    (∀ (es : List (String × String)) (v : String),
      es.lookup "content" = some v → extractFromDict es = v) ∧
    (∀ (es : List (String × String)) (v : String),
      es.lookup "content" = none → es.lookup "text" = some v →
        extractFromDict es = v) ∧
    (∀ (es : List (String × String)) (v : String),
      es.lookup "content" = none → es.lookup "text" = none →
        es.lookup "output" = some v → extractFromDict es = v) ∧
    (∀ (es : List (String × String)) (v : String),
      es.lookup "content" = none → es.lookup "text" = none →
        es.lookup "output" = none → es.lookup "result" = some v →
          extractFromDict es = v) ∧
    (∀ es : List (String × String),
      es.lookup "content" = none → es.lookup "text" = none →
        es.lookup "output" = none → es.lookup "result" = none →
          extractFromDict es = pyStrOfDict es) ∧
    (∀ (vs : VectorStore) (docs : List Doc) (X : String)
        (g : String → Except String PyVal),
      vs.retrieve "summary overview main points" 5 = .ok docs →
        summarize_document ⟨none, [], some ⟨some (fun _ => .ok X), g⟩⟩ vs = X ∧
        summarize_document
            ⟨none, [], some ⟨none, fun _ => .ok (.dict [("output", X)])⟩⟩ vs = X) := by
  refine ⟨?_, ?_, ?_, ?_, ?_, ?_, ?_, ?_, ?_⟩
  · intro f g p s hf
    unfold llm_predict
    simp [hf]
  · intro g p s hg
    unfold llm_predict llmCallFallback
    simp [hg]
  · intro g p es hg
    unfold llm_predict llmCallFallback
    simp [hg]
  · intro es v h1
    unfold extractFromDict
    rw [h1]
  · intro es v h1 h2
    unfold extractFromDict
    rw [h1, h2]
  · intro es v h1 h2 h3
    unfold extractFromDict
    rw [h1, h2, h3]
  · intro es v h1 h2 h3 h4
    unfold extractFromDict
    rw [h1, h2, h3, h4]
  · intro es h1 h2 h3 h4
    unfold extractFromDict
    rw [h1, h2, h3, h4]
  · intro vs docs X g hr
    constructor
    · unfold summarize_document
      rw [hr]
      rfl
    · unfold summarize_document
      rw [hr]
      rfl

/-- C7 witness: the helper at concrete LLMs — `predict` returning "P" is
passed through; a dict with an irrelevant key and "output" extracts the
output value; summarize yields "S" from both LLM shapes. -/
theorem llm_predict_conventions_witness :
    llm_predict (some ⟨some (fun _ => .ok "P"), fun _ => .error "x"⟩) "q" =
      .ok "P" ∧
    extractFromDict [("a", "1"), ("output", "X")] = "X" ∧
    summarize_document
        ⟨none, [], some ⟨some (fun _ => .ok "S"), fun _ => .error "x"⟩⟩
        fiveDocVS = "S" ∧
    summarize_document
        ⟨none, [], some ⟨none, fun _ => .ok (.dict [("output", "S")])⟩⟩
        fiveDocVS = "S" := by
  have h := llm_predict_conventions
  have hs := h.2.2.2.2.2.2.2.2 fiveDocVS
    [⟨"d1", some "x.pdf", some 0⟩, ⟨"d2", some "x.pdf", some 1⟩,
      ⟨"d3", some "x.pdf", some 2⟩, ⟨"d4", some "x.pdf", some 3⟩,
      ⟨"d5", some "x.pdf", some 4⟩] "S" (fun _ => .error "x") rfl
  exact ⟨h.1 _ _ "q" "P" rfl,
    h.2.2.2.2.2.1 [("a", "1"), ("output", "X")] "X" rfl rfl rfl,
    hs.1, hs.2⟩

/-- C8: `process_files` raises "No files provided" on an empty path list
and "No documents were successfully loaded" when every file fails
extraction; a failing file is skipped without affecting the rest of the
batch, and whenever any documents survive extraction the pipeline indexes
the split of exactly those documents. -/
theorem process_files_contract {V : Type}
    (extract : String → Except String (List Doc))
    (split : List Doc → List Doc) (vectorize : List Doc → V) :
    (process_files extract split vectorize [] = .error "No files provided") ∧
    (∀ paths, paths ≠ [] → (∀ p ∈ paths, ∃ e, extract p = .error e) →
      process_files extract split vectorize paths =
        .error "No documents were successfully loaded") ∧
    (∀ (xs ys : List String) (p e : String), extract p = .error e →
      load_pdfs extract (xs ++ p :: ys) = load_pdfs extract (xs ++ ys)) ∧
    (∀ paths, load_pdfs extract paths ≠ [] →
      process_files extract split vectorize paths =
        .ok (vectorize (split (load_pdfs extract paths)))) := by
  refine ⟨rfl, ?_, ?_, ?_⟩
  · intro paths hne hall
    unfold process_files
    rw [if_neg hne]
    simp [load_pdfs_nil_of_all_fail extract paths hall]
  · intro xs ys p e he
    induction xs with
    | nil => simp [load_pdfs, he]
    | cons x xs ih => simp [load_pdfs, ih]
  · intro paths hld
    have hne : paths ≠ [] := by
      intro hp
      exact hld (hp ▸ rfl)
    unfold process_files
    rw [if_neg hne]
    simp [hld]

/-- C8 witness: the contract at a concrete extractor on which `a.pdf`
fails and `b.pdf` succeeds — empty input and all-failing input give the
two error messages, the failing file is skipped, and the mixed batch
indexes the surviving document. -/
theorem process_files_contract_witness :
    process_files exC8 id id ([] : List String) = .error "No files provided" ∧
    process_files exC8 id id ["a.pdf"] =
      .error "No documents were successfully loaded" ∧
    load_pdfs exC8 ["a.pdf", "b.pdf"] = load_pdfs exC8 ["b.pdf"] ∧
    process_files exC8 id id ["a.pdf", "b.pdf"] =
      .ok [⟨"pg", some "b.pdf", some 0⟩] := by
  have h := process_files_contract exC8 id id
  refine ⟨h.1, h.2.1 ["a.pdf"] (by decide) ?_, ?_, ?_⟩
  · intro p hp
    rw [List.mem_singleton.mp hp]
    exact ⟨"bad pdf", rfl⟩
  · simpa using h.2.2.1 [] ["b.pdf"] "a.pdf" "bad pdf" rfl
  · exact (h.2.2.2 ["a.pdf", "b.pdf"] (by decide)).trans rfl

/-- C9: the second-variant `create_vectorstore`, with embeddings
configured and a persisted index present: without forced recreation a
succeeding load yields only the load event (no embedding/index
construction); a failing load removes the directory and rebuilds; with
forced recreation the prior state is deleted before rebuilding whether or
not it would have loaded, and the rebuild embeds the chunk batch exactly
once. -/
theorem create_vectorstore_reuse :
    (create_vectorstore true true true false = .ok [.loadedExistingStore]) ∧
    (create_vectorstore true true false false =
      .ok [.removedDir, .builtFromDocuments]) ∧
    (∀ l : Bool, create_vectorstore true true l true =
      .ok [.removedDir, .builtFromDocuments]) ∧
    (∀ l : Bool, (create_vectorstore true true l true).map
      (List.count CVEvent.builtFromDocuments) = .ok 1) := by
  refine ⟨rfl, rfl, ?_, ?_⟩ <;> intro l <;> cases l <;> rfl

/-- C10: the first (gemini) variant never reuses a persisted index: an
existing persist directory is removed unconditionally and every call
rebuilds from the supplied chunks via the embedding step — no run of this
variant produces a load event, and every run embeds. -/
theorem create_vectorstore_gemini_always_rebuilds :
    (create_vectorstore_gemini true = [.removedDir, .builtFromDocuments]) ∧
    (create_vectorstore_gemini false = [.builtFromDocuments]) ∧
    (∀ d : Bool, CVEvent.loadedExistingStore ∉ create_vectorstore_gemini d ∧
      CVEvent.builtFromDocuments ∈ create_vectorstore_gemini d) := by
  refine ⟨rfl, rfl, ?_⟩
  intro d
  cases d <;> exact ⟨by decide, by decide⟩

end PdfQA
